import Mathlib

/-!
Shallow embedding of the request pipeline of `proxy/proxy.go` from the
dnsproxy repository: the upstream selector weight update
(`calculateUpstreamWeights`), the resolving method (`Resolve`), the
pipeline entry point (`handleDNSRequest`), the response helpers
(`genServerFailure`, `genNotImpl`, `respond`) and the DoH remote address
helper (`remoteAddr`).  Pure data flow is modelled exactly; network calls
(the upstream `Exchange`, the cache lookup, the rate limiter verdict) are
passed in as explicit arguments, and the order of the observable side
effects of one request is recorded as a trace of events.
-/

namespace DnsProxy

/-- Transport tag constant `ProtoUDP = "udp"` from proxy.go. -/
def ProtoUDP : String := "udp"

/-- Transport tag constant `ProtoTCP = "tcp"` from proxy.go. -/
def ProtoTCP : String := "tcp"

/-- Transport tag constant `ProtoTLS = "tls"` from proxy.go. -/
def ProtoTLS : String := "tls"

/-- Transport tag constant `ProtoHTTPS = "https"` from proxy.go. -/
def ProtoHTTPS : String := "https"

/-- DNS RCODE ServerFailure (`dns.RcodeServerFailure = 2`). -/
def RcodeServerFailure : Nat := 2

/-- DNS RCODE NotImplemented (`dns.RcodeNotImplemented = 4`). -/
def RcodeNotImplemented : Nat := 4

/-- DNS query type ANY (`dns.TypeANY = 255`). -/
def TypeANY : Nat := 255

/-- Models the Go constant `defaultTimeout = 10 * time.Second` of proxy.go.
A Go `time.Duration` counts nanoseconds, so converting it with `int(...)`,
as `Resolve` does on the error path (`rtt = int(defaultTimeout)`), yields
the integer 10000000000. -/
def defaultTimeout : Int := 10 * 1000000000

/-- Models `dns.Question` (the fields the pipeline inspects). -/
structure Question where
  name : String
  qtype : Nat
  qclass : Nat
  deriving DecidableEq, Repr

/-- Models the OPT pseudo-record attached by `dns.Msg.SetEdns0(size, do)`:
the advertised UDP payload size and the DO bit. -/
structure OptRecord where
  udpSize : Nat
  dnssecOk : Bool
  deriving DecidableEq, Repr

/-- Models `dns.Msg` (the fields the pipeline reads or writes): header id,
response flag, rcode, RecursionAvailable, the question section, and the
EDNS0 OPT record of the additional section if one was attached. -/
structure Msg where
  id : Nat
  response : Bool
  rcode : Nat
  recursionAvailable : Bool
  question : List Question
  edns0 : Option OptRecord
  deriving DecidableEq, Repr

/-- Models `resp := dns.Msg{}; resp.SetRcode(request, rcode)` from the
miekg/dns library: the reply gets the request's Id, Response=true, the
given rcode, and — when the request has at least one question — a question
section holding exactly the request's first question. -/
def Msg.setRcode (request : Msg) (rcode : Nat) : Msg :=
  { id := request.id
    response := true
    rcode := rcode
    recursionAvailable := false
    question := request.question.take 1
    edns0 := none }

/-- Embeds `genServerFailure` (proxy.go): SERVFAIL reply with
RecursionAvailable set. -/
def genServerFailure (request : Msg) : Msg :=
  { Msg.setRcode request RcodeServerFailure with recursionAvailable := true }

/-- Embeds `genNotImpl` (proxy.go): NOTIMPL reply with RecursionAvailable
set and an explicit EDNS0 record of UDP payload size 1452 with DO=false
(`resp.SetEdns0(1452, false)`). -/
def genNotImpl (request : Msg) : Msg :=
  { Msg.setRcode request RcodeNotImplemented with
      recursionAvailable := true
      edns0 := some { udpSize := 1452, dnssecOk := false } }

/-- Body of the weight loop of `calculateUpstreamWeights` (proxy.go): the
weight of an upstream with averaged RTT `r` under total `sum` is
`sum - r`, clamped to 1 when that is not positive. -/
def weightOf (sum r : Int) : Int :=
  if sum - r ≤ 0 then 1 else sum - r

/-- Embeds `calculateUpstreamWeights` (proxy.go).  Takes the current
`upstreamsRtt` vector, the index of the upstream that was just queried and
the measured RTT; returns the updated RTT vector together with the
recomputed weight vector (the `Weight` fields of `upstreamsWeighted`).
The averaged entry is `rtt` when the old entry is 0 and
`(old + rtt) / 2` otherwise; the sum is folded over the updated vector. -/
def calculateUpstreamWeights (upstreamsRtt : List Int) (upstreamIdx : Nat)
    (rtt : Int) : List Int × List Int :=
  let currentRtt0 := upstreamsRtt.getD upstreamIdx 0
  let currentRtt := if currentRtt0 = 0 then rtt else (currentRtt0 + rtt) / 2
  let newRtt := upstreamsRtt.set upstreamIdx currentRtt
  let sum := newRtt.foldl (· + ·) 0
  (newRtt, newRtt.map (weightOf sum))

/-- Observable side effects of handling one request, in program order. -/
inductive Event where
  | limiterCheck
  | upstreamExchange
  | recordRtt (upstreamIdx : Nat) (rtt : Int)
  | fallbackExchange
  | cacheStore
  | respondWrite
  deriving DecidableEq, Repr

/-- Inputs of one run of `Resolve` (proxy.go).  The network and cache
interactions are supplied as data: `cacheHit` is the result of
`p.cache.Get(d.Req)` (some only when `ok && val != nil`), `upstreamReply`
and `upstreamErr` are what `dnsUpstream.Exchange(d.Req)` returned,
`measuredRtt` is `int(time.Since(startTime) / time.Millisecond)`, and
`fallback` is none when `p.Fallback == nil` and otherwise carries the
reply and error that `p.Fallback.Exchange(d.Req)` would return. -/
structure ResolveArgs where
  cacheEnabled : Bool
  cacheHit : Option Msg
  req : Msg
  upstreamIdx : Nat
  upstreamReply : Option Msg
  upstreamErr : Option String
  measuredRtt : Int
  fallback : Option (Option Msg × Option String)
  upstreamsRtt : List Int
  upstreamsWeighted : List Int
  deriving Repr

/-- Result of one run of `Resolve`: the response stored into `d.Res`, the
returned error, the list of `calculateUpstreamWeights` calls (index and
RTT actually passed), the updated selector vectors, how many times the
fallback was exchanged, what was stored into the cache, and the event
trace. -/
structure ResolveResult where
  res : Option Msg
  errOut : Option String
  recorded : List (Nat × Int)
  upstreamsRtt : List Int
  upstreamsWeighted : List Int
  fallbackTried : Nat
  cacheStored : Option Msg
  trace : List Event
  deriving Repr

/-- Value of the local `rtt` of `Resolve` at the point of the
`calculateUpstreamWeights` call: on an exchange error the measured RTT is
replaced by `rtt = int(defaultTimeout)`. -/
def recordedRtt (a : ResolveArgs) : Int :=
  if a.upstreamErr.isSome then defaultTimeout else a.measuredRtt

/-- The fallback exchange of `Resolve`: performed exactly when the primary
exchange erred and `p.Fallback != nil` (`err != nil && p.Fallback != nil`);
its value is the (reply, error) pair that exchange returns. -/
def fallbackUsed (a : ResolveArgs) : Option (Option Msg × Option String) :=
  if a.upstreamErr.isSome then a.fallback else none

/-- Value of the local `reply` of `Resolve` after the fallback block:
`reply, err = p.Fallback.Exchange(d.Req)` reassigns it when the fallback
ran, otherwise it is the primary exchange's reply. -/
def effectiveReply (a : ResolveArgs) : Option Msg :=
  match fallbackUsed a with
  | some fr => fr.1
  | none => a.upstreamReply

/-- Value of the local `err` of `Resolve` after the fallback block: the
same assignment `reply, err = p.Fallback.Exchange(d.Req)` also overwrites
the error when the fallback ran. -/
def effectiveErr (a : ResolveArgs) : Option String :=
  match fallbackUsed a with
  | some fr => fr.2
  | none => a.upstreamErr

/-- What `Resolve` stores into the cache: the post-fallback reply, when
the cache is enabled and the reply is non-nil (`p.cache != nil && reply != nil`). -/
def storedReply (a : ResolveArgs) : Option Msg :=
  if a.cacheEnabled = true ∧ (effectiveReply a).isSome = true then effectiveReply a
  else none

/-- Embeds `Resolve` (proxy.go).  On a cache hit the cached reply is
served and nothing else happens.  Otherwise the primary exchange result is
taken; on error the RTT is substituted with `int(defaultTimeout)`; the
substituted RTT is recorded via `calculateUpstreamWeights`; on error with
a configured fallback, `reply, err = p.Fallback.Exchange(d.Req)`
reassigns both the reply and the error; a non-nil reply is stored into the
cache when the cache is enabled; `d.Res` becomes the reply, or a generated
SERVFAIL when the reply is nil. -/
def resolve (a : ResolveArgs) : ResolveResult :=
  if a.cacheEnabled = true ∧ a.cacheHit.isSome = true then
    { res := a.cacheHit
      errOut := none
      recorded := []
      upstreamsRtt := a.upstreamsRtt
      upstreamsWeighted := a.upstreamsWeighted
      fallbackTried := 0
      cacheStored := none
      trace := [] }
  else
    let stats := calculateUpstreamWeights a.upstreamsRtt a.upstreamIdx (recordedRtt a)
    { res := some (match effectiveReply a with
                   | some m => m
                   | none => genServerFailure a.req)
      errOut := effectiveErr a
      recorded := [(a.upstreamIdx, recordedRtt a)]
      upstreamsRtt := stats.1
      upstreamsWeighted := stats.2
      fallbackTried := match fallbackUsed a with | some _ => 1 | none => 0
      cacheStored := storedReply a
      trace := [Event.upstreamExchange, Event.recordRtt a.upstreamIdx (recordedRtt a)] ++
        (match fallbackUsed a with | some _ => [Event.fallbackExchange] | none => []) ++
        (match storedReply a with | some _ => [Event.cacheStore] | none => []) }

/-- The ANY-refusal condition of `handleDNSRequest` (proxy.go):
`p.RefuseAny && len(d.Req.Question) > 0 && d.Req.Question[0].Qtype == dns.TypeANY`. -/
def refuseAnyApplies (refuseAny : Bool) (req : Msg) : Bool :=
  match req.question with
  | q :: _ => refuseAny && (q.qtype == TypeANY)
  | [] => false

/-- Embeds `respond` (proxy.go): nothing is written when `d.Res` is nil;
otherwise the response is written on the transport named by the proto tag,
and the default branch of the switch writes nothing. -/
def respond (proto : String) (res : Option Msg) : Option Msg :=
  match res with
  | none => none
  | some m =>
    if proto = ProtoUDP ∨ proto = ProtoTCP ∨ proto = ProtoTLS ∨ proto = ProtoHTTPS then
      some m
    else none

/-- Inputs of one run of `handleDNSRequest` (proxy.go), with the rate
limiter verdict `p.isRatelimited(d.Addr)` supplied as data and the
`Resolve` leg parameterized by `rargs` (whose `req` is the request of the
context).  `Config.Handler` is taken to be nil, so the default resolver
runs. -/
structure HandleArgs where
  proto : String
  ratelimited : Bool
  refuseAny : Bool
  rargs : ResolveArgs
  deriving Repr

/-- Result of one run of `handleDNSRequest`: the final `d.Res`, what
`respond` wrote to the client, the returned error, whether
`chooseUpstream` was invoked, and the event trace. -/
structure HandleResult where
  res : Option Msg
  written : Option Msg
  errOut : Option String
  upstreamSelected : Bool
  trace : List Event
  deriving Repr

/-- Embeds `handleDNSRequest` (proxy.go).  A UDP request denied by the
rate limiter returns at once with no response.  A question count other
than 1 sets `d.Res` to a generated SERVFAIL; the ANY-refusal check then
possibly overwrites `d.Res` with a generated NOTIMPL.  Only when `d.Res`
is still nil is an upstream chosen and `Resolve` run.  Finally `respond`
writes `d.Res` (when non-nil) to the client. -/
def handleDNSRequest (a : HandleArgs) : HandleResult :=
  let limiterTrace : List Event :=
    if a.proto = ProtoUDP then [Event.limiterCheck] else []
  if a.proto = ProtoUDP ∧ a.ratelimited = true then
    { res := none
      written := none
      errOut := none
      upstreamSelected := false
      trace := limiterTrace }
  else
    let req := a.rargs.req
    let res0 : Option Msg :=
      if req.question.length ≠ 1 then some (genServerFailure req) else none
    let res1 : Option Msg :=
      if refuseAnyApplies a.refuseAny req then some (genNotImpl req) else res0
    match res1 with
    | some m =>
      { res := some m
        written := respond a.proto (some m)
        errOut := none
        upstreamSelected := false
        trace := limiterTrace ++
          (match respond a.proto (some m) with
           | some _ => [Event.respondWrite]
           | none => []) }
    | none =>
      let r := resolve a.rargs
      { res := r.res
        written := respond a.proto r.res
        errOut := r.errOut
        upstreamSelected := true
        trace := limiterTrace ++ r.trace ++
          (match respond a.proto r.res with
           | some _ => [Event.respondWrite]
           | none => []) }

/-- Models Go's `net.TCPAddr` as built by `remoteAddr` (proxy.go); the IP
is optional because Go's `net.IP` can be nil. -/
structure TCPAddr where
  ip : Option (List Nat)
  port : Int
  deriving DecidableEq, Repr

/-- Embeds `remoteAddr` (proxy.go), the DoH remote address helper.  The
library calls `net.SplitHostPort`, `strconv.Atoi` and `net.ParseIP` are
supplied as arguments.  Faithfully to the source: when `net.ParseIP(host)`
succeeds (`ip != nil`) the helper returns the error "invalid IP"; when it
fails the helper returns a `net.TCPAddr` built from that nil IP together
with a nil error. -/
def remoteAddr (splitHostPort : String → Except String (String × String))
    (atoi : String → Except String Int)
    (parseIP : String → Option (List Nat))
    (remote : String) : Except String TCPAddr :=
  match splitHostPort remote with
  | Except.error e => Except.error e
  | Except.ok (host, port) =>
    match atoi port with
    | Except.error e => Except.error e
    | Except.ok portValue =>
      match parseIP host with
      | some _ => Except.error ("invalid IP: " ++ host)
      | none => Except.ok { ip := none, port := portValue }

/-- Sample A question. -/
def qA : Question := { name := "example.com.", qtype := 1, qclass := 1 }

/-- Sample ANY question. -/
def qANY : Question := { name := "example.com.", qtype := 255, qclass := 1 }

/-- Sample single-question A request. -/
def reqOneA : Msg :=
  { id := 42, response := false, rcode := 0, recursionAvailable := false,
    question := [qA], edns0 := none }

/-- Sample single-question ANY request. -/
def reqOneANY : Msg := { reqOneA with question := [qANY] }

/-- Sample request with two questions whose first is ANY. -/
def reqTwoAnyFirst : Msg := { reqOneA with question := [qANY, qA] }

/-- Sample request with two A questions. -/
def reqTwoA : Msg := { reqOneA with question := [qA, qA] }

/-- Sample successful upstream reply. -/
def okReply : Msg :=
  { id := 42, response := true, rcode := 0, recursionAvailable := true,
    question := [qA], edns0 := none }

/-- Baseline `Resolve` inputs: cache disabled, two fresh upstreams, the
primary exchange succeeds in 15 ms, no fallback configured. -/
def baseRArgs : ResolveArgs :=
  { cacheEnabled := false, cacheHit := none, req := reqOneA, upstreamIdx := 0,
    upstreamReply := some okReply, upstreamErr := none, measuredRtt := 15,
    fallback := none, upstreamsRtt := [0, 0], upstreamsWeighted := [1, 1] }

/-- Resolve inputs whose primary exchange errs with no fallback. -/
def c1Args : ResolveArgs :=
  { baseRArgs with upstreamReply := none, upstreamErr := some "upstream failed" }

/-- Pipeline inputs: TCP request with two questions, the first of type
ANY, while refuse_any is enabled. -/
def c3AnyArgs : HandleArgs :=
  { proto := ProtoTCP, ratelimited := false, refuseAny := true,
    rargs := { baseRArgs with req := reqTwoAnyFirst } }

/-- Pipeline inputs: TCP request with two A questions, refuse_any off. -/
def c3TwoArgs : HandleArgs :=
  { proto := ProtoTCP, ratelimited := false, refuseAny := false,
    rargs := { baseRArgs with req := reqTwoA } }

/-- Pipeline inputs: UDP single-question ANY request, refuse_any on, not
rate limited. -/
def c4Args : HandleArgs :=
  { proto := ProtoUDP, ratelimited := false, refuseAny := true,
    rargs := { baseRArgs with req := reqOneANY } }

/-- Pipeline inputs: UDP request denied by the rate limiter. -/
def c5Args : HandleArgs :=
  { proto := ProtoUDP, ratelimited := true, refuseAny := false,
    rargs := baseRArgs }

/-- Resolve inputs: primary exchange errs and a fallback is configured
and succeeds. -/
def c6Args : ResolveArgs :=
  { baseRArgs with
    upstreamReply := none, upstreamErr := some "primary timeout",
    fallback := some (some okReply, none) }

/-- Resolve inputs: primary exchange errs with error "primary failed" and
the configured fallback exchange succeeds with no error. -/
def c7Args : ResolveArgs :=
  { baseRArgs with
    upstreamReply := none, upstreamErr := some "primary failed",
    fallback := some (some okReply, none) }

/-- Pipeline inputs: plain UDP single-question request with the cache
enabled (and missing) and a successful upstream exchange. -/
def c8Args : HandleArgs :=
  { proto := ProtoUDP, ratelimited := false, refuseAny := false,
    rargs := { baseRArgs with cacheEnabled := true } }

/-- Pipeline inputs: TCP request with two questions, first ANY,
refuse_any on (for the NOTIMPL-overwrites-SERVFAIL claim). -/
def c10Args : HandleArgs :=
  { proto := ProtoTCP, ratelimited := false, refuseAny := true,
    rargs := { baseRArgs with req := reqTwoAnyFirst } }

/-- Concrete `net.SplitHostPort` stand-in: always splits into host
"nothost" and port "8080". -/
def splitW : String → Except String (String × String) :=
  fun _ => Except.ok ("nothost", "8080")

/-- Concrete `strconv.Atoi` stand-in: always yields 8080. -/
def atoiW : String → Except String Int := fun _ => Except.ok 8080

/-- Concrete `net.ParseIP` stand-in: never parses (models a host name
that is not an IP literal). -/
def parseIPW : String → Option (List Nat) := fun _ => none

/-- Field values of a generated SERVFAIL: rcode 2, RecursionAvailable set,
the request's id, and the request's question section truncated to its
first entry. -/
theorem genServerFailure_spec (req : Msg) :
    (genServerFailure req).rcode = RcodeServerFailure ∧
      (genServerFailure req).recursionAvailable = true ∧
      (genServerFailure req).id = req.id ∧
      (genServerFailure req).question = req.question.take 1 :=
  ⟨rfl, rfl, rfl, rfl⟩

/-- Field values of a generated NOTIMPL: rcode 4, RecursionAvailable set,
the request's id, the truncated question, and an EDNS0 record advertising
UDP payload size 1452 with DO=false. -/
theorem genNotImpl_spec (req : Msg) :
    (genNotImpl req).rcode = RcodeNotImplemented ∧
      (genNotImpl req).recursionAvailable = true ∧
      (genNotImpl req).id = req.id ∧
      (genNotImpl req).question = req.question.take 1 ∧
      (genNotImpl req).edns0 = some { udpSize := 1452, dnssecOk := false } :=
  ⟨rfl, rfl, rfl, rfl, rfl⟩

/-- Bounds of the clamped weight `weightOf sum r = max(1, sum - r)`: it is
at least 1, at most `max 1 (sum - r)`, and equals 1 exactly when
`sum - r ≤ 1`. -/
theorem weightOf_bounds (sum r : Int) :
    1 ≤ weightOf sum r ∧ weightOf sum r ≤ max 1 (sum - r) ∧
      (weightOf sum r = 1 ↔ sum - r ≤ 1) := by
  unfold weightOf
  rcases le_or_lt (sum - r) 0 with h | h
  · rw [if_pos h]
    exact ⟨le_refl 1, le_max_left 1 _, by constructor <;> intro <;> omega⟩
  · rw [if_neg (by omega)]
    exact ⟨by omega, le_max_of_le_right (le_refl _),
      by constructor <;> intro <;> omega⟩

/-- The weight vector produced by `calculateUpstreamWeights` is the
pointwise clamp `weightOf sum` of the updated RTT vector, with `sum` the
fold of the updated RTT vector. -/
theorem calculateUpstreamWeights_snd (rtts : List Int) (idx : Nat) (r : Int) :
    (calculateUpstreamWeights rtts idx r).2 =
      (calculateUpstreamWeights rtts idx r).1.map
        (weightOf ((calculateUpstreamWeights rtts idx r).1.foldl (· + ·) 0)) :=
  rfl

/-- C1: the claim says the RTT recorded on an upstream exchange error is
the default timeout of 10,000 milliseconds; the code records
`int(defaultTimeout)`, which is the nanosecond count 10,000,000,000, into
the millisecond RTT vector. -/
theorem resolve_error_rtt_substitution :
    (resolve c1Args).recorded = [(0, defaultTimeout)] ∧
      defaultTimeout = 10000000000 ∧ ¬ defaultTimeout = 10000 := by
  decide

/-- C2 counterexample: with rtt vector [0, 0], after record(0, 5) the
updated vector is [5, 0] with sum 5, and weight[0] is the clamp 1 even
though the claimed upper bound is `sum - rtt[0] = 0 < 1`; with rtt vector
[0, 1], after record(0, 2) the updated vector is [2, 1] with sum 3, and
weight[0] = 1 attains the lower bound although rtt[0] = 2 < 3 = sum,
refuting the claimed iff. -/
theorem upstream_weight_claim_counterexample :
    ((calculateUpstreamWeights [0, 0] 0 5).1[0]? = some 5 ∧
      (calculateUpstreamWeights [0, 0] 0 5).2[0]? = some 1 ∧
      (calculateUpstreamWeights [0, 0] 0 5).1.foldl (· + ·) 0 = 5 ∧
      ¬ ((1 : Int) ≤ 5 - 5)) ∧
    ((calculateUpstreamWeights [0, 1] 0 2).1[0]? = some 2 ∧
      (calculateUpstreamWeights [0, 1] 0 2).2[0]? = some 1 ∧
      (calculateUpstreamWeights [0, 1] 0 2).1.foldl (· + ·) 0 = 3 ∧
      ¬ ((2 : Int) ≥ 3)) := by
  decide

/-- C2 (amended): after record(i, r) with a non-negative measured RTT,
the weight of upstream i lies in [1, max(1, Σ rtt − rtt[i])], and the
lower bound 1 is attained exactly when Σ rtt − rtt[i] ≤ 1, the sum taken
over the updated rtt vector. -/
theorem upstream_weight_bounds (rtts : List Int) (idx : Nat) (r : Int)
    (hr : 0 ≤ r) (ri w : Int)
    (hri : (calculateUpstreamWeights rtts idx r).1[idx]? = some ri)
    (hw : (calculateUpstreamWeights rtts idx r).2[idx]? = some w) :
    1 ≤ w ∧
      w ≤ max 1 ((calculateUpstreamWeights rtts idx r).1.foldl (· + ·) 0 - ri) ∧
      (w = 1 ↔ (calculateUpstreamWeights rtts idx r).1.foldl (· + ·) 0 - ri ≤ 1) := by
  rw [calculateUpstreamWeights_snd, List.getElem?_map, hri] at hw
  obtain rfl :
      weightOf ((calculateUpstreamWeights rtts idx r).1.foldl (· + ·) 0) ri = w := by
    simpa using hw
  exact weightOf_bounds _ _

/-- C2 witness: the amended bound evaluated after record(0, 5) on the
fresh vector [0, 0]. -/
theorem upstream_weight_bounds_witness :
    1 ≤ (1 : Int) ∧
      (1 : Int) ≤ max 1 ((calculateUpstreamWeights [0, 0] 0 5).1.foldl (· + ·) 0 - 5) ∧
      ((1 : Int) = 1 ↔ (calculateUpstreamWeights [0, 0] 0 5).1.foldl (· + ·) 0 - 5 ≤ 1) :=
  upstream_weight_bounds [0, 0] 0 5 (by decide) 5 1 (by decide) (by decide)

/-- Shape of the pipeline result when a policy check already set `d.Res`
to some message `m` before upstream selection: the upstream is skipped and
`m` is handed to `respond`. -/
theorem handleDNSRequest_policy (a : HandleArgs) (m : Msg)
    (h1 : ¬ (a.proto = ProtoUDP ∧ a.ratelimited = true))
    (hres1 : (if refuseAnyApplies a.refuseAny a.rargs.req then
                some (genNotImpl a.rargs.req)
              else if a.rargs.req.question.length ≠ 1 then
                some (genServerFailure a.rargs.req)
              else none) = some m) :
    handleDNSRequest a =
      { res := some m
        written := respond a.proto (some m)
        errOut := none
        upstreamSelected := false
        trace := (if a.proto = ProtoUDP then [Event.limiterCheck] else []) ++
          (match respond a.proto (some m) with
           | some _ => [Event.respondWrite]
           | none => []) } := by
  simp only [handleDNSRequest, if_neg h1, hres1]

/-- The event trace of a policy short-circuit holds no upstream exchange. -/
theorem upstreamExchange_not_mem_policy_trace (proto : String) (m : Msg) :
    Event.upstreamExchange ∉
      ((if proto = ProtoUDP then [Event.limiterCheck] else []) ++
        (match respond proto (some m) with
         | some _ => [Event.respondWrite]
         | none => [])) := by
  intro hm
  rcases List.mem_append.mp hm with h | h
  · revert h
    split <;> simp
  · revert h
    split <;> simp

/-- C3 counterexample: a TCP request with two questions whose first is
ANY, with refuse_any on, yields NOTIMPL (rcode 4), not SERVFAIL; and for
a two-A-question request the SERVFAIL response carries only the first
question, not the request's question section. -/
theorem multi_question_servfail_counterexample :
    (reqTwoAnyFirst.question.length = 2 ∧
      (handleDNSRequest c3AnyArgs).res = some (genNotImpl reqTwoAnyFirst) ∧
      (genNotImpl reqTwoAnyFirst).rcode = 4 ∧
      ¬ (genNotImpl reqTwoAnyFirst).rcode = RcodeServerFailure) ∧
    ((handleDNSRequest c3TwoArgs).res = some (genServerFailure reqTwoA) ∧
      ¬ (genServerFailure reqTwoA).question = reqTwoA.question) := by
  decide

/-- C3 (amended): a request that reaches the question-count check (it was
not dropped by the UDP rate limiter) with question count ≠ 1 selects and
contacts no upstream, and is answered with a SERVFAIL carrying the
request's id, RecursionAvailable=true and the question section truncated
to the first question — except that when refuse_any is on and the first
question's qtype is ANY, the response is instead the generated NOTIMPL. -/
theorem multi_question_response (a : HandleArgs)
    (h1 : a.rargs.req.question.length ≠ 1)
    (h2 : ¬ (a.proto = ProtoUDP ∧ a.ratelimited = true)) :
    (handleDNSRequest a).upstreamSelected = false ∧
      Event.upstreamExchange ∉ (handleDNSRequest a).trace ∧
      (handleDNSRequest a).res =
        some (if refuseAnyApplies a.refuseAny a.rargs.req then genNotImpl a.rargs.req
              else genServerFailure a.rargs.req) ∧
      (genServerFailure a.rargs.req).rcode = RcodeServerFailure ∧
      (genServerFailure a.rargs.req).recursionAvailable = true ∧
      (genServerFailure a.rargs.req).id = a.rargs.req.id ∧
      (genServerFailure a.rargs.req).question = a.rargs.req.question.take 1 ∧
      (genNotImpl a.rargs.req).rcode = RcodeNotImplemented := by
  by_cases hA : refuseAnyApplies a.refuseAny a.rargs.req = true
  · have hstep := handleDNSRequest_policy a (genNotImpl a.rargs.req) h2
      (by rw [if_pos hA])
    rw [hstep]
    refine ⟨rfl, upstreamExchange_not_mem_policy_trace a.proto _, ?_,
      (genServerFailure_spec a.rargs.req).1, (genServerFailure_spec a.rargs.req).2.1,
      (genServerFailure_spec a.rargs.req).2.2.1,
      (genServerFailure_spec a.rargs.req).2.2.2, (genNotImpl_spec a.rargs.req).1⟩
    rw [if_pos hA]
  · have hstep := handleDNSRequest_policy a (genServerFailure a.rargs.req) h2
      (by rw [if_neg hA, if_pos h1])
    rw [hstep]
    refine ⟨rfl, upstreamExchange_not_mem_policy_trace a.proto _, ?_,
      (genServerFailure_spec a.rargs.req).1, (genServerFailure_spec a.rargs.req).2.1,
      (genServerFailure_spec a.rargs.req).2.2.1,
      (genServerFailure_spec a.rargs.req).2.2.2, (genNotImpl_spec a.rargs.req).1⟩
    rw [if_neg hA]

/-- C3 witness: the amended statement evaluated on a TCP request with two
A questions and refuse_any off. -/
theorem multi_question_response_witness :
    (handleDNSRequest c3TwoArgs).upstreamSelected = false ∧
      Event.upstreamExchange ∉ (handleDNSRequest c3TwoArgs).trace ∧
      (handleDNSRequest c3TwoArgs).res =
        some (if refuseAnyApplies c3TwoArgs.refuseAny reqTwoA then genNotImpl reqTwoA
              else genServerFailure reqTwoA) ∧
      (genServerFailure reqTwoA).rcode = RcodeServerFailure ∧
      (genServerFailure reqTwoA).recursionAvailable = true ∧
      (genServerFailure reqTwoA).id = reqTwoA.id ∧
      (genServerFailure reqTwoA).question = reqTwoA.question.take 1 ∧
      (genNotImpl reqTwoA).rcode = RcodeNotImplemented :=
  multi_question_response c3TwoArgs (by decide) (by decide)

/-- C4: a single-question ANY request handled with refuse_any on and not
dropped by the rate limiter is answered with the generated NOTIMPL —
rcode 4, RecursionAvailable=true, EDNS0 with UDP payload size 1452 and
DO=false, the request's id and question — and no upstream is selected or
contacted. -/
theorem refuse_any_notimpl (a : HandleArgs) (q : Question)
    (h1 : a.rargs.req.question = [q]) (h2 : q.qtype = TypeANY)
    (h3 : a.refuseAny = true)
    (h4 : ¬ (a.proto = ProtoUDP ∧ a.ratelimited = true)) :
    (handleDNSRequest a).upstreamSelected = false ∧
      Event.upstreamExchange ∉ (handleDNSRequest a).trace ∧
      (handleDNSRequest a).res = some (genNotImpl a.rargs.req) ∧
      (genNotImpl a.rargs.req).rcode = RcodeNotImplemented ∧
      (genNotImpl a.rargs.req).recursionAvailable = true ∧
      (genNotImpl a.rargs.req).edns0 = some { udpSize := 1452, dnssecOk := false } ∧
      (genNotImpl a.rargs.req).id = a.rargs.req.id ∧
      (genNotImpl a.rargs.req).question = a.rargs.req.question := by
  have hA : refuseAnyApplies a.refuseAny a.rargs.req = true := by
    rw [refuseAnyApplies, h1]
    simp [h2, h3]
  have hstep := handleDNSRequest_policy a (genNotImpl a.rargs.req) h4
    (by rw [if_pos hA])
  rw [hstep]
  refine ⟨rfl, upstreamExchange_not_mem_policy_trace a.proto _, rfl,
    (genNotImpl_spec a.rargs.req).1, (genNotImpl_spec a.rargs.req).2.1,
    (genNotImpl_spec a.rargs.req).2.2.2.2, (genNotImpl_spec a.rargs.req).2.2.1, ?_⟩
  rw [(genNotImpl_spec a.rargs.req).2.2.2.1, h1]
  rfl

/-- C4 witness: the statement evaluated on a UDP single-question ANY
request with refuse_any on and the rate limiter allowing it. -/
theorem refuse_any_notimpl_witness :
    (handleDNSRequest c4Args).upstreamSelected = false ∧
      Event.upstreamExchange ∉ (handleDNSRequest c4Args).trace ∧
      (handleDNSRequest c4Args).res = some (genNotImpl reqOneANY) ∧
      (genNotImpl reqOneANY).rcode = RcodeNotImplemented ∧
      (genNotImpl reqOneANY).recursionAvailable = true ∧
      (genNotImpl reqOneANY).edns0 = some { udpSize := 1452, dnssecOk := false } ∧
      (genNotImpl reqOneANY).id = reqOneANY.id ∧
      (genNotImpl reqOneANY).question = reqOneANY.question :=
  refuse_any_notimpl c4Args qANY rfl rfl rfl (by decide)

/-- C10: a request with two or more questions whose first question has
qtype ANY, handled with refuse_any on and not dropped by the rate
limiter, is answered NOTIMPL (rcode 4), not SERVFAIL: the ANY check
overwrites the SERVFAIL set by the question-count check, and no upstream
is selected. -/
theorem any_overwrites_servfail (a : HandleArgs) (q : Question)
    (qs : List Question)
    (h1 : a.rargs.req.question = q :: qs) (h2 : qs ≠ [])
    (h3 : q.qtype = TypeANY) (h4 : a.refuseAny = true)
    (h5 : ¬ (a.proto = ProtoUDP ∧ a.ratelimited = true)) :
    (handleDNSRequest a).res = some (genNotImpl a.rargs.req) ∧
      (genNotImpl a.rargs.req).rcode = RcodeNotImplemented ∧
      RcodeNotImplemented ≠ RcodeServerFailure ∧
      (handleDNSRequest a).upstreamSelected = false := by
  have hA : refuseAnyApplies a.refuseAny a.rargs.req = true := by
    rw [refuseAnyApplies, h1]
    simp [h3, h4]
  have hstep := handleDNSRequest_policy a (genNotImpl a.rargs.req) h5
    (by rw [if_pos hA])
  rw [hstep]
  exact ⟨rfl, (genNotImpl_spec a.rargs.req).1, by decide, rfl⟩

/-- C10 witness: the statement evaluated on a TCP request with questions
[ANY, A] and refuse_any on. -/
theorem any_overwrites_servfail_witness :
    (handleDNSRequest c10Args).res = some (genNotImpl reqTwoAnyFirst) ∧
      (genNotImpl reqTwoAnyFirst).rcode = RcodeNotImplemented ∧
      RcodeNotImplemented ≠ RcodeServerFailure ∧
      (handleDNSRequest c10Args).upstreamSelected = false :=
  any_overwrites_servfail c10Args qANY [qA] rfl (by decide) rfl rfl (by decide)

/-- The event trace of `Resolve` never contains a rate limiter check. -/
theorem limiterCheck_not_mem_resolve_trace (b : ResolveArgs) :
    Event.limiterCheck ∉ (resolve b).trace := by
  simp only [resolve]
  split
  · simp
  · split <;> split <;> split <;> simp

/-- The respond step of the trace never contains a rate limiter check. -/
theorem limiterCheck_not_mem_respond_part (proto : String) (o : Option Msg) :
    Event.limiterCheck ∉
      (match respond proto o with
       | some _ => [Event.respondWrite]
       | none => []) := by
  split <;> simp

/-- C5: the rate limiter is consulted exactly for requests whose
transport is UDP, and a UDP request the limiter denies produces no
response at all: `d.Res` stays nil, nothing is written to the client, and
no respond event occurs. -/
theorem ratelimit_udp_only (a : HandleArgs) :
    ((Event.limiterCheck ∈ (handleDNSRequest a).trace) ↔ a.proto = ProtoUDP) ∧
      (a.proto = ProtoUDP → a.ratelimited = true →
        (handleDNSRequest a).res = none ∧ (handleDNSRequest a).written = none ∧
          Event.respondWrite ∉ (handleDNSRequest a).trace) := by
  constructor
  · by_cases hp : a.proto = ProtoUDP
    · refine ⟨fun _ => hp, fun _ => ?_⟩
      simp only [handleDNSRequest, if_pos hp]
      split
      · simp
      · split <;> simp
    · refine ⟨fun hm => ?_, fun h => absurd h hp⟩
      exfalso
      simp only [handleDNSRequest, if_neg hp] at hm
      rw [if_neg (fun h => hp h.1)] at hm
      split at hm
      · simp only [List.nil_append] at hm
        exact limiterCheck_not_mem_respond_part a.proto _ hm
      · simp only [List.nil_append, List.mem_append] at hm
        rcases hm with hm | hm
        · exact limiterCheck_not_mem_resolve_trace a.rargs hm
        · exact limiterCheck_not_mem_respond_part a.proto _ hm
  · intro hp hr
    have hstep : handleDNSRequest a =
        { res := none, written := none, errOut := none, upstreamSelected := false,
          trace := if a.proto = ProtoUDP then [Event.limiterCheck] else [] } := by
      simp only [handleDNSRequest, if_pos (And.intro hp hr)]
    rw [hstep]
    refine ⟨rfl, rfl, ?_⟩
    rw [if_pos hp]
    simp

/-- C5 witness: a denied UDP request gets no response while the limiter
was consulted. -/
theorem ratelimit_udp_only_witness :
    (handleDNSRequest c5Args).res = none ∧
      Event.limiterCheck ∈ (handleDNSRequest c5Args).trace :=
  ⟨((ratelimit_udp_only c5Args).2 rfl rfl).1, (ratelimit_udp_only c5Args).1.mpr rfl⟩

/-- C6: when the primary exchange fails on a cache miss and a fallback is
configured, the fallback is exchanged exactly once, and the selector
records exactly one entry — the primary's substituted RTT; the fallback
exchange's RTT is never fed into the rtt/weight vectors. -/
theorem fallback_once_primary_rtt (a : ResolveArgs) (e : String)
    (h0 : ¬ (a.cacheEnabled = true ∧ a.cacheHit.isSome = true))
    (h1 : a.upstreamErr = some e)
    (fr : Option Msg) (fe : Option String)
    (h2 : a.fallback = some (fr, fe)) :
    (resolve a).fallbackTried = 1 ∧
      (resolve a).recorded = [(a.upstreamIdx, defaultTimeout)] := by
  have hfb : fallbackUsed a = some (fr, fe) := by
    simp only [fallbackUsed, h1, Option.isSome_some, if_true, h2]
  have hrtt : recordedRtt a = defaultTimeout := by
    simp only [recordedRtt, h1, Option.isSome_some, if_true]
  constructor
  · simp only [resolve, if_neg h0, hfb]
  · simp only [resolve, if_neg h0, hrtt]

/-- C6 witness: the statement evaluated on a failing primary with a
succeeding fallback. -/
theorem fallback_once_primary_rtt_witness :
    (resolve c6Args).fallbackTried = 1 ∧
      (resolve c6Args).recorded = [(0, defaultTimeout)] :=
  fallback_once_primary_rtt c6Args "primary timeout" (by decide) rfl
    (some okReply) none rfl

/-- C7 counterexample: the primary exchange fails with "primary failed"
and the configured fallback succeeds; `Resolve` serves the fallback reply
and returns a nil error — not the primary's error, as claimed. -/
theorem fallback_error_counterexample :
    c7Args.upstreamErr = some "primary failed" ∧
      (resolve c7Args).res = some okReply ∧
      (resolve c7Args).errOut = none := by
  decide

/-- C7 (amended): when the primary exchange fails on a cache miss and a
fallback is configured, `reply, err = p.Fallback.Exchange(d.Req)`
overwrites the error, so `Resolve` returns the fallback exchange's error
— in particular nil when the fallback succeeds. -/
theorem fallback_error_returned (a : ResolveArgs) (e : String)
    (h0 : ¬ (a.cacheEnabled = true ∧ a.cacheHit.isSome = true))
    (h1 : a.upstreamErr = some e)
    (fr : Option Msg) (fe : Option String)
    (h2 : a.fallback = some (fr, fe)) :
    (resolve a).errOut = fe := by
  have hfb : fallbackUsed a = some (fr, fe) := by
    simp only [fallbackUsed, h1, Option.isSome_some, if_true, h2]
  simp only [resolve, if_neg h0, effectiveErr, hfb]

/-- C7 witness: the amended statement evaluated on a failing primary with
a succeeding fallback: the returned error is nil. -/
theorem fallback_error_returned_witness :
    (resolve c7Args).errOut = none :=
  fallback_error_returned c7Args "primary failed" (by decide) rfl
    (some okReply) none rfl

/-- C8 counterexample: on a cache-enabled UDP request with a successful
upstream exchange, the trace places the cache store at position 3 and the
response write at position 4: the store happens before the write, not
after it as claimed. -/
theorem cache_store_after_write_counterexample :
    (handleDNSRequest c8Args).trace =
      [Event.limiterCheck, Event.upstreamExchange, Event.recordRtt 0 15,
        Event.cacheStore, Event.respondWrite] ∧
      (handleDNSRequest c8Args).trace.indexOf Event.cacheStore = 3 ∧
      (handleDNSRequest c8Args).trace.indexOf Event.respondWrite = 4 ∧
      ¬ ((handleDNSRequest c8Args).trace.indexOf Event.respondWrite <
          (handleDNSRequest c8Args).trace.indexOf Event.cacheStore) := by
  decide

/-- C8 (amended): for every request that reaches the upstream leg with
the cache enabled, a cache miss and a non-nil post-fallback reply, the
cache store happens inside `Resolve`, immediately before the response
write: the trace splits as l1 ++ [cacheStore, respondWrite] ++ l2, so an
immediate re-query can be served from the cache. -/
theorem cache_store_before_write (a : HandleArgs)
    (h1 : ¬ (a.proto = ProtoUDP ∧ a.ratelimited = true))
    (h2 : a.rargs.req.question.length = 1)
    (h3 : ¬ refuseAnyApplies a.refuseAny a.rargs.req = true)
    (h4 : a.rargs.cacheEnabled = true)
    (h5 : a.rargs.cacheHit = none)
    (h6 : (effectiveReply a.rargs).isSome = true)
    (h7 : a.proto = ProtoUDP ∨ a.proto = ProtoTCP ∨ a.proto = ProtoTLS ∨
      a.proto = ProtoHTTPS) :
    ∃ l1 l2, (handleDNSRequest a).trace =
      l1 ++ Event.cacheStore :: Event.respondWrite :: l2 := by
  have hne : ¬ a.rargs.req.question.length ≠ 1 := fun h => h h2
  have hhit : ¬ (a.rargs.cacheEnabled = true ∧ a.rargs.cacheHit.isSome = true) := by
    rw [h5]
    simp
  obtain ⟨mr, hmr⟩ := Option.isSome_iff_exists.mp h6
  have hst : storedReply a.rargs = some mr := by
    unfold storedReply
    rw [if_pos ⟨h4, h6⟩]
    exact hmr
  have hrespond : ∀ m : Msg, respond a.proto (some m) = some m := by
    intro m
    simp only [respond]
    rw [if_pos h7]
  refine ⟨(if a.proto = ProtoUDP then [Event.limiterCheck] else []) ++
    ([Event.upstreamExchange, Event.recordRtt a.rargs.upstreamIdx (recordedRtt a.rargs)] ++
      (match fallbackUsed a.rargs with
       | some _ => [Event.fallbackExchange]
       | none => [])), [], ?_⟩
  simp only [handleDNSRequest, if_neg h1, if_neg h3, if_neg hne,
    resolve, if_neg hhit, hst, hmr, hrespond]
  simp [List.append_assoc]

/-- C8 witness: the amended statement evaluated on a cache-enabled UDP
request with a successful upstream exchange. -/
theorem cache_store_before_write_witness :
    ∃ l1 l2, (handleDNSRequest c8Args).trace =
      l1 ++ Event.cacheStore :: Event.respondWrite :: l2 :=
  cache_store_before_write c8Args (by decide) (by decide) (by decide) rfl rfl
    (by decide) (Or.inl rfl)

/-- C9: for every DoH request whose RemoteAddr splits into a host and a
numeric port, `remoteAddr` returns an error exactly when the host parses
as a valid IP, and when the host does not parse it returns a TCP address
built from the nil IP together with a nil error. -/
theorem remote_addr_rejects_valid_ip
    (splitHostPort : String → Except String (String × String))
    (atoi : String → Except String Int)
    (parseIP : String → Option (List Nat))
    (remote host port : String) (portValue : Int)
    (hsplit : splitHostPort remote = Except.ok (host, port))
    (hport : atoi port = Except.ok portValue) :
    ((∃ e, remoteAddr splitHostPort atoi parseIP remote = Except.error e) ↔
        (parseIP host).isSome = true) ∧
      (parseIP host = none →
        remoteAddr splitHostPort atoi parseIP remote =
          Except.ok { ip := none, port := portValue }) := by
  simp only [remoteAddr, hsplit, hport]
  cases hip : parseIP host with
  | some ip => simp
  | none => simp

/-- C9 witness: with a host that does not parse as an IP, the helper
returns the nil-IP TCP address and a nil error. -/
theorem remote_addr_rejects_valid_ip_witness :
    ((∃ e, remoteAddr splitW atoiW parseIPW "nothost:8080" = Except.error e) ↔
        (parseIPW "nothost").isSome = true) ∧
      (parseIPW "nothost" = none →
        remoteAddr splitW atoiW parseIPW "nothost:8080" =
          Except.ok { ip := none, port := 8080 }) :=
  remote_addr_rejects_valid_ip splitW atoiW parseIPW "nothost:8080" "nothost"
    "8080" 8080 rfl rfl

end DnsProxy
